import Mathlib

/-!
Shallow embedding of the pygoogalytics repository (Blink-SEO/pygoogalytics)
used to check the natural-language specification against the code.

Each definition mirrors one Python function of the repository; the theorems
at the end of the file settle the spec claims.  Strings are modelled by
Lean `String`/`List Char`; Python's ASCII-relevant `str.lower` and the regex
character class `[A-Z]` are modelled on the ASCII range; machine integers do
not overflow in any modelled code path, so `Nat`/`Int` are used directly.
-/

namespace Pygoogalytics

/-! ## utils/general_utils.py -/

/-- Models the regex character class `[A-Z]` (ASCII upper-case letter),
used by `RE_C2S = re.compile(r"(?<!^)(?=[A-Z])")`. -/
def pyIsUp (c : Char) : Bool := 65 ≤ c.toNat && c.toNat ≤ 90

/-- ASCII fragment of Python's `str.lower()` on a single character: an
upper-case ASCII letter is shifted by 32, any other character is kept. -/
def pyLowerChar (c : Char) : Char :=
  if 65 ≤ c.toNat && c.toNat ≤ 90 then Char.ofNat (c.toNat + 32) else c

/-- Worker for `camel_to_snake`: `atStart` is true exactly at the first
character of the original string, where the look-behind `(?<!^)` of
`RE_C2S` suppresses the insertion of an underscore. -/
def camelToSnakeAux : Bool → List Char → List Char
  | _, [] => []
  | atStart, c :: cs =>
    if !atStart && pyIsUp c then '_' :: pyLowerChar c :: camelToSnakeAux false cs
    else pyLowerChar c :: camelToSnakeAux false cs

/-- Models `general_utils.camel_to_snake`: `RE_C2S.sub('_', string).lower()` —
insert `_` before every internal upper-case letter, then lower-case. -/
def camel_to_snake (s : String) : String := ⟨camelToSnakeAux true s.data⟩

/-- Python `str.split(sep)` for a one-character separator. -/
def pySplit (sep : Char) : List Char → List (List Char)
  | [] => [[]]
  | a :: t =>
    if a = sep then [] :: pySplit sep t
    else
      match pySplit sep t with
      | [] => [[a]]
      | h :: r => (a :: h) :: r

/-- Models `re.match` of `URL_PATH_CAPTURE = r"(?:https?://)?[^/]*(/.*)"`
returning group 1.  The alternatives are tried in the regex engine's
backtracking order: scheme consumed (`https://` before `http://`), then
scheme skipped; in each alternative the greedy `[^/]*` stops at the first
`/` of the remaining input, which is where the capture starts. -/
def urlPathCapture (u : List Char) : Option (List Char) :=
  if "https://".data.isPrefixOf u then
    if '/' ∈ u.drop 8 then some ((u.drop 8).dropWhile (· != '/'))
    else some (u.dropWhile (· != '/'))
  else if "http://".data.isPrefixOf u then
    if '/' ∈ u.drop 7 then some ((u.drop 7).dropWhile (· != '/'))
    else some (u.dropWhile (· != '/'))
  else if '/' ∈ u then some (u.dropWhile (· != '/'))
  else none

/-- Models `general_utils.strip_url`: drop everything from the first `?`, then
return the path captured by `RE_URL_PATH_CAPTURE`, or the input if the
regex does not match. -/
def strip_url (url : String) : String :=
  let u := (pySplit '?' url.data).headD []
  match urlPathCapture u with
  | some path => ⟨path⟩
  | none => ⟨u⟩

/-- Models `general_utils.url_extract_parameter`: `url.split('?')[1]` when the
url contains a `?`, else `None`. -/
def url_extract_parameter (url : String) : Option String :=
  if '?' ∈ url.data then some ⟨(pySplit '?' url.data).getD 1 []⟩ else none

/-! ## kwp_wrappers.py: volume helpers and `_partition_list`

The volume-trend input is `None`-or-a-list in Python; it is modelled as
`Option (List Int)` (`none` = absent / not a list).  Python's negative
indexing `l[-k]` is modelled by `listNegIdx`; an out-of-range index (an
`IndexError` in Python, reachable only outside the guarded paths) is
modelled as `none`. -/

/-- Python `l[-k]` for `k ≥ 1`, as an `Option` (`none` = `IndexError`). -/
def listNegIdx (l : List Int) (k : Nat) : Option Int :=
  if 1 ≤ k ∧ k ≤ l.length then l.get? (l.length - k) else none

/-- Models `kwp_wrappers._latest_volume`. -/
def _latest_volume (v : Option (List Int)) : Option Int :=
  match v with
  | none => none
  | some l => if l.length = 0 then none else listNegIdx l 1

/-- Models `kwp_wrappers._previous_volume`. -/
def _previous_volume (v : Option (List Int)) : Option Int :=
  match v with
  | none => none
  | some l => if l.length = 0 then none else listNegIdx l 2

/-- Models `kwp_wrappers._last_year_volume`. -/
def _last_year_volume (v : Option (List Int)) : Option Int :=
  match v with
  | none => none
  | some l => if l.length < 12 then none else listNegIdx l 12

/-- Models `kwp_wrappers._partition_list`:
`[_list[n*i : n*i+n] for i in range(ceil(len(_list)/n))]`. -/
def _partition_list (l : List α) (n : Nat) : List (List α) :=
  (List.range ((l.length + n - 1) / n)).map (fun i => (l.drop (n * i)).take n)

/-! ## datetime.date and option-string truthiness -/

/-- A `datetime.date`; comparison of dates is lexicographic on
(year, month, day). -/
structure PyDate where
  year : Nat
  month : Nat
  day : Nat
deriving DecidableEq, Repr

/-- Models `datetime.date.__lt__`: lexicographic order. -/
def PyDate.lt (a b : PyDate) : Bool :=
  a.year < b.year ||
    (a.year = b.year && (a.month < b.month ||
      (a.month = b.month && a.day < b.day)))

/-- Python `min(a, b)` on dates (returns the first argument on ties). -/
def pyMinDate (a b : PyDate) : PyDate := if PyDate.lt b a then b else a

/-- Python `max(a, b)` on dates (returns the first argument on ties). -/
def pyMaxDate (a b : PyDate) : PyDate := if PyDate.lt a b then b else a

/-- Truthiness of an optional Python string: `None` and `""` are falsy. -/
def optStrTruthy : Option String → Bool
  | none => false
  | some s => s.length != 0

/-! ## googlepandas.py: `GADataFrame` metadata and `join_on_dimensions`

Only the metadata carried by the `GADataFrame` subclass is modelled; the
underlying `pd.merge` row content is not consulted by any claim and is
not modelled. -/

/-- The `_metadata` attributes of `googlepandas.GADataFrame` relevant to
`join_on_dimensions` (the merged row data itself is not modelled). -/
structure GADF where
  dimensions : List String
  metrics : List String
  join_dimensions : List String
  dateStart : PyDate
  dateEnd : PyDate
  error : Option String
  responseType : String
deriving DecidableEq, Repr

/-- Python `set(a) == set(b)` on string lists. -/
def listSetEq (a b : List String) : Bool :=
  a.all (fun x => b.contains x) && b.all (fun x => a.contains x)

/-- Models `GADataFrame.join_on_dimensions`: raises `ValueError` when the two
`join_dimensions` differ as sets; otherwise builds the joined frame's
metadata: union dimension/metric sets, min start / max end date, and the
error tag `_e` computed as `self.error if self.error else dataframe.error`
followed by clearing an `'empty_response'` value to `None`.  The `how`
argument only affects the (unmodelled) `pd.merge` row content. -/
def join_on_dimensions (l r : GADF) (how : String) : Except String GADF :=
  if !(listSetEq l.join_dimensions r.join_dimensions) then
    Except.error "Input dataframe must have same join_dimensions"
  else
    let e0 := if optStrTruthy l.error then l.error else r.error
    let e1 := if e0 = some "empty_response" then none else e0
    Except.ok
      { dimensions := (l.dimensions ++ r.dimensions).eraseDups
        metrics := (l.metrics ++ r.metrics).eraseDups
        join_dimensions := l.join_dimensions
        dateStart := pyMinDate l.dateStart r.dateStart
        dateEnd := pyMaxDate l.dateEnd r.dateEnd
        error := e1
        responseType := l.responseType }

/-! ## googlepandas.py: `iso_code_2_to_3` -/

/-- Modelled from the spec: the bundled lookup table
`data/country_iso_codes.csv` (2-letter to 3-letter ISO country codes) is
shipped with the package and is not part of the source tree here; the
spec describes it as a 2-to-3-letter ISO country-code map with no entry
for unassigned codes such as `"ZZ"`.  A representative fragment is used;
`csv.reader` row columns 1 and 2 become the dictionary. -/
def countryIsoCodes : List (String × String) :=
  [("FR", "FRA"), ("DE", "DEU"), ("ES", "ESP"), ("IT", "ITA"),
   ("NL", "NLD"), ("IE", "IRL"), ("AU", "AUS"), ("CA", "CAN")]

/-- Models `googlepandas.iso_code_2_to_3`: hard-coded fast paths for `"GB"` and
`"US"`, otherwise `isodict.get(iso_code, 'ZZZ')` over the bundled CSV. -/
def iso_code_2_to_3 (isoCode : String) : String :=
  if isoCode = "GB" then "GBR"
  else if isoCode = "US" then "USA"
  else ((countryIsoCodes.lookup isoCode).getD "ZZZ")

/-! ## googalytics_wrapper.py: GSC fetch path

`get_gsc_response` returns `None` both on a handled `HttpError` and when
the backend response carries no `rows` key (the zero-row case); otherwise
it returns the response dictionary.  The backend is modelled as a function
from `(rowLimit, startRow)` to an optional response. -/

/-- One row of a GSC `searchanalytics` response. -/
abbrev GscRow := List (String × String)

/-- The fields of a GSC response dictionary consulted by the wrapper. -/
structure GscResponse where
  rows : List GscRow
  responseAggregation : Option String
deriving Repr

/-- The `GSCDataFrame` as seen by `_get_gsc_df_raw`: row data, the
`_metadata` attributes, and the resulting column list.  The Python class
defines no `error` attribute and none of its code paths sets one; the
`error` field models `getattr(df, 'error', None)` and therefore stays
`none` throughout the GSC path. -/
structure GSCDF where
  rows : List GscRow
  dimensions : List String
  metrics : List String
  columns : List String
  responseAggregation : Option String
  error : Option String
deriving DecidableEq, Repr

/-- Models `GSCDataFrame.__init__` with `df_input=None`: an empty frame whose
columns are the dimensions followed by the four metrics, with the
`date`→`record_date` and `page`→`landing_page` renames of that branch. -/
def gscEmptyInit (gscDimensions : Option (List String)) : GSCDF :=
  let dims := gscDimensions.getD ["country", "device", "page", "query"]
  let metrics := ["clicks", "impressions", "ctr", "position"]
  let cols := (dims ++ metrics).map (fun c => if c = "date" then "record_date" else c)
  let cols := cols.map (fun c => if c = "page" then "landing_page" else c)
  { rows := [], dimensions := dims, metrics := metrics, columns := cols,
    responseAggregation := none, error := none }

/-- The trailing column blocks of `GSCDataFrame.__init__` that run for
every branch: lower-casing `device` values (no column change), the
`date`→`record_date` rename and the `country`→`country_iso_code` rename. -/
def gscTrailing (m : GSCDF) : GSCDF :=
  let cols := m.columns.map (fun c => if c = "date" then "record_date" else c)
  let cols := cols.map (fun c => if c = "country" then "country_iso_code" else c)
  { m with columns := cols }

/-- The continuation `while temp_row_limit > 0` loop of `_get_gsc_df_raw`
that fetches further 25,000-row pages, stopping early when a fetch
returns `None`. -/
def gscFetchLoop (backend : Nat → Nat → Option GscResponse)
    (fromResp : GscResponse → GSCDF) (frames : List GSCDF)
    (tempRowLimit tempStartRow : Nat) : List GSCDF :=
  if h : 0 < tempRowLimit then
    match backend (min tempRowLimit 25000) tempStartRow with
    | none => frames
    | some r =>
      gscFetchLoop backend fromResp (frames ++ [fromResp r])
        (tempRowLimit - 25000) (tempStartRow + 25000)
  else frames
termination_by tempRowLimit
decreasing_by exact Nat.sub_lt h (by norm_num)

/-- Models `GoogalyticsWrapper._get_gsc_df_raw`.  The normaliser for a non-empty
response (`gpd.from_response` / the `from_gsc_response=True` branch of
`GSCDataFrame.__init__`) and the `pd.concat` re-wrap are pandas-heavy and
not consulted by any claim; they are abstracted as the `fromResp` and
`concatFrames` parameters, so the theorems below hold for every choice of
them. -/
def get_gsc_df_raw (backend : Nat → Nat → Option GscResponse)
    (fromResp : GscResponse → List String → GSCDF)
    (concatFrames : List GSCDF → List String → GSCDF)
    (rowLimit : Nat) (gscDimensions : List String) : GSCDF :=
  match backend (min rowLimit 25000) 0 with
  | none => gscTrailing (gscEmptyInit (some gscDimensions))
  | some resp =>
    let df := gscTrailing (fromResp resp gscDimensions)
    if 25000 < rowLimit ∧ df.rows.length = 25000 then
      let frames := gscFetchLoop backend
        (fun r => gscTrailing (fromResp r gscDimensions)) [df]
        (rowLimit - 25000) 25000
      if 1 < frames.length then concatFrames frames gscDimensions else df
    else df

/-! ## googalytics_wrapper.py / utils/ga4_parser.py: GA4 paginated fetch

`get_ga4_response` drives `_ga4_response_raw` + `parse_ga4_response` in a
`while not complete` loop with an inner 3-try loop.  The backend (one
`run_report` round trip followed by `parse_ga4_response`) is modelled as a
function from `(callIndex, offset, requestLimit)` to either a parsed page
or a raised exception.  The Python outer loop can run forever (nothing
bounds it when the inner loop exhausts its tries on generic exceptions),
so it is modelled with explicit fuel: a run that has not reached
`complete` within the given fuel yields `none`. -/

/-- A row of a parsed GA4 response (merged dimension/metric dict). -/
abbrev GA4Row := List (String × String)

/-- A parsed GA4 response as produced by `parse_ga4_response` (and by
`join_ga4_responses`): `row_count` is always `len(rows)` there, so it is
exposed as the derived `GA4Resp.rowCount`. -/
structure GA4Resp where
  dimensionHeaders : List String
  metricHeaders : List String
  metaRowCount : Nat
  rows : List GA4Row
deriving Repr

/-- Models `response.get('row_count', 0)`: `parse_ga4_response` sets the key to
`len(rows)`, and the default-dict case has no rows either. -/
def GA4Resp.rowCount (r : GA4Resp) : Nat := r.rows.length

/-- The exceptions distinguished by the `except` clauses of
`get_ga4_response`; everything not in the first four clauses (including
`AttributeError`) is caught by the generic `except Exception`. -/
inductive Exn where
  | permissionDenied
  | resourceExhausted
  | missingID
  | invalidArgument (msg : String)
  | generic
  | attributeError (msg : String)
deriving DecidableEq, Repr

/-- Whether `needle` occurs as a contiguous run at the head of `hay`. -/
def seqStartsWith : List Char → List Char → Bool
  | [], _ => true
  | _ :: _, [] => false
  | a :: as, b :: bs => a = b && seqStartsWith as bs

/-- Whether `needle` occurs as a contiguous run anywhere in `hay`; models
`re.search` of a metacharacter-free pattern. -/
def seqOccurs (needle : List Char) : List Char → Bool
  | [] => seqStartsWith needle []
  | b :: bs => seqStartsWith needle (b :: bs) || seqOccurs needle bs

/-- The `InvalidArgument` handler of `get_ga4_response`: `error_type`
starts as `'InvalidArgument'` and is overwritten by the two `re.search`
checks in order. -/
def classifyInvalidArgument (msg : String) : String :=
  let et := "InvalidArgument"
  let et := if seqOccurs "metrics are incompatible".data msg.data then "IncompatibleMetrics" else et
  let et := if seqOccurs "Invalid property ID".data msg.data then "InvalidPropertyID" else et
  et

/-- Result of one GA4 backend round trip. -/
inductive Fetch where
  | ok (page : GA4Resp)
  | exn (e : Exn)

/-- The state of the inner `while num_tries < 3 and not success` loop as
it exits (plus the log of offsets of the issued backend calls). -/
structure InnerRes where
  success : Bool
  page : Option GA4Resp
  complete : Bool
  errorType : Option String
  error : Option Exn
  callLog : List Nat
deriving Repr

/-- The inner retry loop of `get_ga4_response`, by remaining tries
(`3 - num_tries`; the terminal handlers set `num_tries = 1_000`, i.e.
exit).  Each attempt first resets `error = None`; a success leaves the
carried `error_type` untouched (the code never resets it). -/
def ga4InnerLoop (backend : Nat → Nat → Nat → Fetch) (offset reqLimit : Nat) :
    Nat → List Nat → Option String → Option Exn → InnerRes
  | 0, log, et, err =>
    { success := false, page := none, complete := false,
      errorType := et, error := err, callLog := log }
  | t + 1, log, et, err =>
    match backend log.length offset reqLimit with
    | .ok page =>
      { success := true, page := some page, complete := false,
        errorType := et, error := none, callLog := log ++ [offset] }
    | .exn e =>
      match e with
      | .permissionDenied =>
        { success := false, page := none, complete := true,
          errorType := some "PermissionDenied", error := some e,
          callLog := log ++ [offset] }
      | .resourceExhausted =>
        { success := false, page := none, complete := true,
          errorType := some "ResourceExhausted", error := some e,
          callLog := log ++ [offset] }
      | .missingID =>
        { success := false, page := none, complete := true,
          errorType := some "MissingID", error := some e,
          callLog := log ++ [offset] }
      | .invalidArgument msg =>
        { success := false, page := none, complete := true,
          errorType := some (classifyInvalidArgument msg),
          error := some (Exn.invalidArgument msg), callLog := log ++ [offset] }
      | _ =>
        ga4InnerLoop backend offset reqLimit t (log ++ [offset])
          (some "Error") (some e)

/-- The mutable variables of the outer `while not complete` loop. -/
structure OuterState where
  offset : Nat
  complete : Bool
  responses : List GA4Resp
  errorType : Option String
  error : Option Exn
  callLog : List Nat

/-- One iteration of the outer loop body of `get_ga4_response`. -/
def ga4OuterStep (backend : Nat → Nat → Nat → Fetch) (limit reqLimit : Nat)
    (s : OuterState) : OuterState :=
  let ir := ga4InnerLoop backend s.offset reqLimit 3 s.callLog s.errorType s.error
  if ir.success then
    match ir.page with
    | some page =>
      let rc := page.rowCount
      let offset := s.offset + rc
      let complete := if limit ≤ offset then true
        else if rc = 0 ∨ page.metaRowCount ≤ offset then true else false
      { offset := offset, complete := complete,
        responses := s.responses ++ [page], errorType := ir.errorType,
        error := ir.error, callLog := ir.callLog }
    | none =>
      -- unreachable: `success` implies a parsed page was stored
      { offset := s.offset, complete := true, responses := s.responses,
        errorType := ir.errorType, error := ir.error, callLog := ir.callLog }
  else
    { offset := s.offset, complete := ir.complete, responses := s.responses,
      errorType := ir.errorType, error := ir.error, callLog := ir.callLog }

/-- The outer `while not complete` loop, with fuel. -/
def ga4OuterLoop (backend : Nat → Nat → Nat → Fetch) (limit reqLimit : Nat) :
    Nat → OuterState → OuterState
  | 0, s => s
  | f + 1, s =>
    if s.complete then s
    else ga4OuterLoop backend limit reqLimit f (ga4OuterStep backend limit reqLimit s)

/-- Models `ga4_parser.join_ga4_responses`: concatenate the rows, keep the first
response's headers and reported total, recompute `row_count`. -/
def join_ga4_responses (rs : List GA4Resp) : GA4Resp :=
  { dimensionHeaders := ((rs.head?).map (·.dimensionHeaders)).getD []
    metricHeaders := ((rs.head?).map (·.metricHeaders)).getD []
    metaRowCount := ((rs.head?).map (·.metaRowCount)).getD 0
    rows := (rs.map (·.rows)).flatten }

/-- The value returned by `get_ga4_response` (the `start_date`/`end_date`
keys are copied verbatim onto the dict and are omitted). -/
structure GA4Final where
  resp : GA4Resp
  error : Option Exn
  errorType : Option String

/-- The post-loop assembly of `get_ga4_response`: join when more than one
page, tag an all-empty result as `EmptyResponse`, build the default dict
when no page was fetched (that dict carries no `meta_row_count` key;
`0` stands for the absent key, which no modelled reader consults). -/
def ga4Assemble (dimensions metrics : List String) (s : OuterState) : GA4Final :=
  if 1 < s.responses.length then
    let r := join_ga4_responses s.responses
    if r.rowCount = 0 then
      { resp := r, error := some (Exn.attributeError "Empty response"),
        errorType := some "EmptyResponse" }
    else { resp := r, error := s.error, errorType := s.errorType }
  else if s.responses.length = 1 then
    let r := (s.responses.head?).getD
      { dimensionHeaders := dimensions, metricHeaders := metrics,
        metaRowCount := 0, rows := [] }
    if r.rowCount = 0 then
      { resp := r, error := some (Exn.attributeError "Empty response"),
        errorType := some "EmptyResponse" }
    else { resp := r, error := s.error, errorType := s.errorType }
  else
    { resp := { dimensionHeaders := dimensions, metricHeaders := metrics,
                metaRowCount := 0, rows := [] },
      error := s.error, errorType := s.errorType }

/-- Models `GoogalyticsWrapper.get_ga4_response`, with fuel for the outer loop:
`none` models a run that never reaches `complete`. -/
def get_ga4_response (backend : Nat → Nat → Nat → Fetch)
    (dimensions metrics : List String) (limit : Option Nat) (fuel : Nat) :
    Option GA4Final :=
  let requestLimit := match limit with
    | none => 100000
    | some l => if l < 100000 then l else 100000
  let lim := match limit with
    | none => 1000000000
    | some l => l
  let s := ga4OuterLoop backend lim requestLimit fuel
    { offset := 0, complete := false, responses := [], errorType := none,
      error := none, callLog := [] }
  if s.complete then some (ga4Assemble dimensions metrics s) else none

/-! ## Backends used to exercise `get_ga4_response` -/

/-- Rows of a synthetic GA4 page (the loop never inspects row content). -/
def mkRows (n : Nat) : List GA4Row := List.replicate n []

/-- The initial outer-loop state of `get_ga4_response`. -/
def ga4InitState : OuterState :=
  { offset := 0, complete := false, responses := [], errorType := none,
    error := none, callLog := [] }

/-- A mocked backend serving a report of 200,042 total rows in pages of
the requested size: offsets 0 / 100,000 / 200,000 yield pages of
100,000 / 100,000 / 42 rows, each reporting a total `row_count` of
200,042. -/
def c1Backend : Nat → Nat → Nat → Fetch := fun _ offset reqLimit =>
  Fetch.ok { dimensionHeaders := ["date"], metricHeaders := ["sessions"],
             metaRowCount := 200042,
             rows := mkRows (min reqLimit (200042 - offset)) }

/-- The page `c1Backend` serves at a given offset for the default request
size of 100,000. -/
def c1Page (offset : Nat) : GA4Resp :=
  { dimensionHeaders := ["date"], metricHeaders := ["sessions"],
    metaRowCount := 200042, rows := mkRows (min 100000 (200042 - offset)) }

/-- A backend on which every call raises the given exception. -/
def ga4ExnBackend (e : Exn) : Nat → Nat → Nat → Fetch := fun _ _ _ => Fetch.exn e

/-! ## googalytics_wrapper.py: `_get_analytics_df` date validation

Only the date-validation head of `_get_analytics_df` and the fact that
the per-metric-batch fetch loop runs after it are relevant; the loop body
is abstracted to counting the fetch calls it would issue. -/

/-- Models `_get_analytics_df` up to and including its fetch loop: the first
component is the `ValueError` message raised by the date checks (`none`
when nothing is raised), the second the number of fetch calls the
per-metric-batch loop issues — a raise happens before the loop, so a
raising run issues zero fetches. -/
def analytics_df_dates (today startDate : PyDate) (endDate : Option PyDate)
    (numMetricBatches : Nat) : Option String × Nat :=
  let endD := match endDate with
    | none => startDate
    | some d => d
  if PyDate.lt endD startDate then
    (some "date range incompatible: end_date < start_date", 0)
  else if PyDate.lt today startDate then
    (some "date range incompatible: start_date in the future", 0)
  else (none, numMetricBatches)

/-! ## Concrete frames used to exercise `join_on_dimensions` -/

/-- A frame whose only recorded error is the soft `'empty_response'` tag. -/
def emptyTaggedFrame : GADF :=
  { dimensions := ["date"], metrics := ["sessions"],
    join_dimensions := ["date"], dateStart := ⟨2023, 1, 1⟩,
    dateEnd := ⟨2023, 1, 31⟩, error := some "empty_response",
    responseType := "GA4" }

/-- A frame carrying a fatal `'PermissionDenied'` error tag. -/
def deniedFrame : GADF :=
  { dimensions := ["date"], metrics := ["users"],
    join_dimensions := ["date"], dateStart := ⟨2023, 1, 5⟩,
    dateEnd := ⟨2023, 2, 28⟩, error := some "PermissionDenied",
    responseType := "GA4" }

/-- An error-free frame. -/
def cleanFrame : GADF :=
  { dimensions := ["date"], metrics := ["bounces"],
    join_dimensions := ["date"], dateStart := ⟨2022, 12, 1⟩,
    dateEnd := ⟨2023, 1, 15⟩, error := none, responseType := "GA4" }

/-! ## Helper lemmas -/

theorem pyIsUp_pyLowerChar (c : Char) : pyIsUp (pyLowerChar c) = false := by
  rw [pyLowerChar]
  split
  · next h =>
    simp only [Bool.and_eq_true, decide_eq_true_eq] at h
    obtain ⟨h1, h2⟩ := h
    rw [pyIsUp]
    generalize hn : c.toNat = n at h1 h2
    interval_cases n <;> decide
  · next h =>
    rw [pyIsUp]
    simpa using h

theorem pyLowerChar_of_not_up (c : Char) (h : pyIsUp c = false) :
    pyLowerChar c = c := by
  rw [pyLowerChar, if_neg]
  rw [pyIsUp] at h
  simp [h]

theorem camelToSnakeAux_all_lower (s : List Char) :
    ∀ (b : Bool), ∀ c ∈ camelToSnakeAux b s, pyIsUp c = false := by
  induction s with
  | nil => intro b c hc; simp [camelToSnakeAux] at hc
  | cons a t ih =>
    intro b c hc
    rw [camelToSnakeAux] at hc
    split at hc
    · simp only [List.mem_cons] at hc
      rcases hc with h | h | h
      · subst h; decide
      · subst h; exact pyIsUp_pyLowerChar a
      · exact ih false c h
    · simp only [List.mem_cons] at hc
      rcases hc with h | h
      · subst h; exact pyIsUp_pyLowerChar a
      · exact ih false c h

theorem camelToSnakeAux_fix (s : List Char) (hs : ∀ c ∈ s, pyIsUp c = false) :
    ∀ (b : Bool), camelToSnakeAux b s = s := by
  induction s with
  | nil => intro b; rfl
  | cons a t ih =>
    intro b
    have ha : pyIsUp a = false := hs a (by simp)
    rw [camelToSnakeAux, if_neg (by simp [ha]),
      pyLowerChar_of_not_up a ha, ih (fun c hc => hs c (by simp [hc]))]

/-! ## Claim theorems -/

/-- C7: `camel_to_snake` is idempotent — applying it twice yields the same
result as once — and `camel_to_snake "landingPagePath" = "landing_page_path"`. -/
theorem camel_to_snake_idempotent :
    (∀ s : String, camel_to_snake (camel_to_snake s) = camel_to_snake s)
    ∧ camel_to_snake "landingPagePath" = "landing_page_path" := by
  constructor
  · intro s
    show (⟨camelToSnakeAux true (camelToSnakeAux true s.data)⟩ : String) = _
    rw [camelToSnakeAux_fix (camelToSnakeAux true s.data)
      (camelToSnakeAux_all_lower s.data true) true]
    rfl
  · decide

/-- C8: `iso_code_2_to_3` maps `"GB"` to `"GBR"`, `"US"` to `"USA"`, and the
unknown code `"ZZ"` to the fallback `"ZZZ"`. -/
theorem iso_code_2_to_3_values :
    iso_code_2_to_3 "GB" = "GBR" ∧ iso_code_2_to_3 "US" = "USA"
    ∧ iso_code_2_to_3 "ZZ" = "ZZZ" := by
  refine ⟨rfl, rfl, rfl⟩

/-- C5 (counterexample): on the 12-element list `[10, 20, ..., 120]`,
`_last_year_volume` does not return `None` — the claim asserts it does. -/
theorem last_year_volume_twelve_not_none :
    ¬ _last_year_volume
        (some [10, 20, 30, 40, 50, 60, 70, 80, 90, 100, 110, 120]) = none := by
  decide

/-- C5 (amended): on `[10, 20, ..., 120]`, `_latest_volume` returns 120,
`_previous_volume` returns 110, and `_last_year_volume` returns the element
12 from the end — the first element, 10 (not `None`); on an 11-element list
`_last_year_volume` returns `None`; and all three return `None` when the
input is absent (not a list) or empty. -/
theorem volume_helpers_values :
    _latest_volume (some [10, 20, 30, 40, 50, 60, 70, 80, 90, 100, 110, 120])
        = some 120
    ∧ _previous_volume (some [10, 20, 30, 40, 50, 60, 70, 80, 90, 100, 110, 120])
        = some 110
    ∧ _last_year_volume (some [10, 20, 30, 40, 50, 60, 70, 80, 90, 100, 110, 120])
        = some 10
    ∧ _last_year_volume (some [10, 20, 30, 40, 50, 60, 70, 80, 90, 100, 110])
        = none
    ∧ _latest_volume none = none ∧ _previous_volume none = none
    ∧ _last_year_volume none = none
    ∧ _latest_volume (some []) = none ∧ _previous_volume (some []) = none
    ∧ _last_year_volume (some []) = none := by
  decide

/-- C3: `_get_analytics_df` raises a `ValueError` exactly when
`end_date < start_date` (with an absent end date defaulting to the start
date) or `start_date > today`; a raising run issues no fetch call, and a
valid query raises nothing. -/
theorem analytics_df_date_validation (today startDate : PyDate)
    (endDate : Option PyDate) (numMetricBatches : Nat) :
    ((analytics_df_dates today startDate endDate numMetricBatches).1 ≠ none ↔
      (PyDate.lt (endDate.getD startDate) startDate = true ∨
        PyDate.lt today startDate = true))
    ∧ ((analytics_df_dates today startDate endDate numMetricBatches).1 ≠ none →
        (analytics_df_dates today startDate endDate numMetricBatches).2 = 0)
    ∧ (¬ (PyDate.lt (endDate.getD startDate) startDate = true ∨
          PyDate.lt today startDate = true) →
        analytics_df_dates today startDate endDate numMetricBatches
          = (none, numMetricBatches)) := by
  have hend : (match endDate with | none => startDate | some d => d)
      = endDate.getD startDate := by cases endDate <;> rfl
  simp only [analytics_df_dates, hend]
  by_cases h1 : PyDate.lt (endDate.getD startDate) startDate = true
  · simp [h1]
  · by_cases h2 : PyDate.lt today startDate = true
    · simp [h1, h2]
    · simp [h1, h2]

/-- C3 witness: a query whose end date precedes its start date is
rejected with no fetch call issued. -/
theorem analytics_df_date_validation_witness :
    (analytics_df_dates ⟨2026, 10, 12⟩ ⟨2026, 5, 1⟩ (some ⟨2026, 4, 30⟩) 3).1
        ≠ none
    ∧ (analytics_df_dates ⟨2026, 10, 12⟩ ⟨2026, 5, 1⟩ (some ⟨2026, 4, 30⟩) 3).2
        = 0 := by
  have h := analytics_df_date_validation ⟨2026, 10, 12⟩ ⟨2026, 5, 1⟩
    (some ⟨2026, 4, 30⟩) 3
  refine ⟨h.1.mpr (Or.inl (by decide)), h.2.1 (h.1.mpr (Or.inl (by decide)))⟩

/-- C2 (counterexample): with a left frame tagged `'empty_response'` and a
right frame tagged `'PermissionDenied'` (equal join dimensions), the claim
predicts the joined error tag `'PermissionDenied'` (the first non-empty tag
that is not `'empty_response'`), but the code selects the left tag and then
clears it, yielding `None`. -/
theorem join_error_tag_counterexample :
    ((join_on_dimensions emptyTaggedFrame deniedFrame "outer").toOption.map
        GADF.error) = some none
    ∧ (([emptyTaggedFrame.error, deniedFrame.error].filter
          (fun t => optStrTruthy t && t != some "empty_response")).headD none)
        = some "PermissionDenied" := by
  refine ⟨rfl, rfl⟩

/-- C2 (amended): `join_on_dimensions` fails exactly when the two frames'
`join_dimensions` differ as sets; on success the joined date range is the
min start / max end of the two frames, and the error tag is the left tag if
non-empty, otherwise the right tag — with a selected `'empty_response'` tag
cleared to `None`. -/
theorem join_on_dimensions_spec (l r : GADF) (how : String) :
    ((∃ msg, join_on_dimensions l r how = Except.error msg) ↔
      listSetEq l.join_dimensions r.join_dimensions = false)
    ∧ (∀ res, join_on_dimensions l r how = Except.ok res →
        res.dateStart = pyMinDate l.dateStart r.dateStart
        ∧ res.dateEnd = pyMaxDate l.dateEnd r.dateEnd
        ∧ res.error =
            (if (if optStrTruthy l.error then l.error else r.error)
                = some "empty_response" then none
             else (if optStrTruthy l.error then l.error else r.error))) := by
  by_cases h : listSetEq l.join_dimensions r.join_dimensions
  · constructor
    · simp [join_on_dimensions, h]
    · intro res hres
      simp only [join_on_dimensions, h, Bool.not_true, Bool.false_eq_true,
        if_false, Except.ok.injEq] at hres
      subst hres
      refine ⟨rfl, rfl, rfl⟩
  · rw [Bool.not_eq_true] at h
    constructor
    · simp [join_on_dimensions, h]
    · intro res hres
      simp [join_on_dimensions, h] at hres

/-- C2 witness: joining the `'empty_response'`-tagged frame with the clean
frame succeeds; the result spans 2022-12-01 to 2023-01-31 and its error
tag is cleared to `None`. -/
theorem join_on_dimensions_spec_witness :
    (∃ res, join_on_dimensions emptyTaggedFrame cleanFrame "outer"
        = Except.ok res
      ∧ res.dateStart = ⟨2022, 12, 1⟩ ∧ res.dateEnd = ⟨2023, 1, 31⟩
      ∧ res.error = none) := by
  refine ⟨_, rfl, ?_⟩
  obtain ⟨h1, h2, h3⟩ :=
    (join_on_dimensions_spec emptyTaggedFrame cleanFrame "outer").2 _ rfl
  exact ⟨by rw [h1]; decide, by rw [h2]; decide, by rw [h3]; decide⟩

/-- C6 (counterexample): a zero-row GSC fetch (the backend reports no
`rows` key, so `get_gsc_response` returns `None`) yields an empty frame
whose error tag is *not* `'empty_response'` — `GSCDataFrame` carries no
error attribute and no code path on the GSC side sets one. -/
theorem gsc_empty_no_error_tag_counterexample :
    ¬ (get_gsc_df_raw (fun _ _ => none) (fun _ _ => gscEmptyInit none)
        (fun _ _ => gscEmptyInit none) 200000
        ["date", "country", "device", "page", "query"]).error
      = some "empty_response" := by
  decide

/-- C6 (amended): when the GSC fetch returns zero rows, the GSC dataframe
path does not raise: for every normaliser and concatenator it yields a
frame with zero rows carrying the requested dimension metadata — but with
no `'empty_response'` error tag (the GSC frame has no error tag at all). -/
theorem gsc_empty_response_frame
    (fromResp : GscResponse → List String → GSCDF)
    (concatFrames : List GSCDF → List String → GSCDF)
    (rowLimit : Nat) (gscDimensions : List String) :
    (get_gsc_df_raw (fun _ _ => none) fromResp concatFrames rowLimit
        gscDimensions).rows = []
    ∧ (get_gsc_df_raw (fun _ _ => none) fromResp concatFrames rowLimit
        gscDimensions).dimensions = gscDimensions
    ∧ (get_gsc_df_raw (fun _ _ => none) fromResp concatFrames rowLimit
        gscDimensions).error = none := by
  refine ⟨rfl, rfl, rfl⟩

theorem partition_list_nil (n : Nat) : _partition_list ([] : List α) n = [] := by
  have h : (n - 1) / n = 0 := by
    cases n with
    | zero => rfl
    | succ m => exact Nat.div_eq_of_lt (by omega)
  simp [_partition_list, h]

theorem partition_list_cons (n : Nat) (hn : 1 ≤ n) (l : List α) (hl : l ≠ []) :
    _partition_list l n = l.take n :: _partition_list (l.drop n) n := by
  have hlen : 1 ≤ l.length := by
    cases l with
    | nil => exact absurd rfl hl
    | cons a t => simp
  have hn0 : 0 < n := hn
  have hcount : (l.length + n - 1) / n = (l.length - 1) / n + 1 := by
    have h1 : l.length + n - 1 = (l.length - 1) + n := by omega
    rw [h1, Nat.add_div_right (l.length - 1) hn0]
  have hcount2 : ((l.length - n) + n - 1) / n = (l.length - 1) / n := by
    rcases Nat.lt_or_ge n l.length with h | h
    · have h1 : l.length - n + n - 1 = (l.length - 1 - n) + n := by omega
      rw [h1, Nat.add_div_right (l.length - 1 - n) hn0]
      conv_rhs => rw [show l.length - 1 = (l.length - 1 - n) + n from by omega,
        Nat.add_div_right (l.length - 1 - n) hn0]
    · have h0 : l.length - n = 0 := by omega
      have h2 : (l.length - 1) / n = 0 := Nat.div_eq_of_lt (by omega)
      rw [h0, h2]
      exact Nat.div_eq_of_lt (by omega)
  rw [_partition_list, _partition_list, List.length_drop, hcount, hcount2,
    List.range_succ_eq_map, List.map_cons, List.map_map]
  congr 1
  refine List.map_congr_left fun i hi => ?_
  simp only [Function.comp, List.drop_drop]
  rw [Nat.succ_eq_add_one, show n * (i + 1) = n + n * i from by ring]

theorem partition_list_spec_aux (n : Nat) (hn : 1 ≤ n) (k : Nat) :
    ∀ (l : List α), l.length ≤ k →
      (_partition_list l n).flatten = l
      ∧ (∀ c ∈ _partition_list l n, c.length ≤ n)
      ∧ (∀ c ∈ (_partition_list l n).dropLast, c.length = n) := by
  induction k with
  | zero =>
    intro l hl
    have hnil : l = [] := List.length_eq_zero.mp (Nat.le_zero.mp hl)
    subst hnil
    rw [partition_list_nil]
    exact ⟨rfl, by intro c hc; simp at hc, by intro c hc; simp at hc⟩
  | succ k ih =>
    intro l hl
    by_cases hnil : l = []
    · subst hnil
      rw [partition_list_nil]
      exact ⟨rfl, by intro c hc; simp at hc, by intro c hc; simp at hc⟩
    · rw [partition_list_cons n hn l hnil]
      have hlen : 1 ≤ l.length := by
        cases l with
        | nil => exact absurd rfl hnil
        | cons a t => simp
      obtain ⟨ih1, ih2, ih3⟩ := ih (l.drop n) (by rw [List.length_drop]; omega)
      refine ⟨?_, ?_, ?_⟩
      · rw [List.flatten_cons, ih1, List.take_append_drop]
      · intro c hc
        rcases List.mem_cons.mp hc with h | h
        · subst h
          rw [List.length_take]
          omega
        · exact ih2 c h
      · intro c hc
        cases hrest : _partition_list (l.drop n) n with
        | nil =>
          rw [hrest] at hc
          simp at hc
        | cons b bs =>
          rw [hrest, List.dropLast_cons₂] at hc
          have hdropnil : l.drop n ≠ [] := by
            intro hdn
            rw [hdn, partition_list_nil] at hrest
            exact List.cons_ne_nil b bs hrest.symm
          have hlt : n < l.length := by
            by_contra hge
            exact hdropnil (List.drop_eq_nil_of_le (by omega))
          rcases List.mem_cons.mp hc with h | h
          · subst h
            rw [List.length_take]
            omega
          · rw [← hrest] at h
            exact ih3 c h

/-- C9: for every list and every `n ≥ 1`, the sublists produced by
`_partition_list` concatenate back to the input in order (no element is
dropped or duplicated when keyword batches are formed), every sublist has
length at most `n`, and every sublist except possibly the last has length
exactly `n`. -/
theorem partition_list_spec (l : List α) (n : Nat) (hn : 1 ≤ n) :
    (_partition_list l n).flatten = l
    ∧ (∀ c ∈ _partition_list l n, c.length ≤ n)
    ∧ (∀ c ∈ (_partition_list l n).dropLast, c.length = n) :=
  partition_list_spec_aux n hn l.length l (Nat.le_refl _)

/-- C9 witness: partitioning `[1, 2, 3, 4, 5]` into pairs restores the
list on concatenation. -/
theorem partition_list_spec_witness :
    (_partition_list [1, 2, 3, 4, 5] 2).flatten = [1, 2, 3, 4, 5] :=
  (partition_list_spec [1, 2, 3, 4, 5] 2 (by decide)).1

theorem pySplit_ne_nil (c : Char) (l : List Char) : pySplit c l ≠ [] := by
  cases l with
  | nil => simp [pySplit]
  | cons a t =>
    rw [pySplit]
    split
    · simp
    · split
      · simp
      · simp

theorem pySplit_head (c : Char) (l : List Char) :
    (pySplit c l).headD [] = l.takeWhile (· != c) := by
  induction l with
  | nil => rfl
  | cons a t ih =>
    rw [pySplit]
    by_cases hac : a = c
    · subst hac
      simp [List.takeWhile_cons]
    · rw [if_neg hac]
      cases hps : pySplit c t with
      | nil => exact absurd hps (pySplit_ne_nil c t)
      | cons h r =>
        rw [hps] at ih
        simp only [List.headD_cons] at ih
        simp [List.takeWhile_cons, hac, ← ih]

theorem pySplit_getD_one (c : Char) (l : List Char) (hc : c ∈ l) :
    (pySplit c l).getD 1 [] = ((l.dropWhile (· != c)).drop 1).takeWhile (· != c) := by
  induction l with
  | nil => simp at hc
  | cons a t ih =>
    rw [pySplit]
    by_cases hac : a = c
    · subst hac
      rw [if_pos rfl]
      have hdw : (a :: t).dropWhile (· != a) = a :: t := by
        rw [List.dropWhile_cons]
        simp
      rw [hdw]
      simp only [List.drop_succ_cons, List.drop_zero, List.getD_cons_succ,
        List.getD_cons_zero]
      have hhd := pySplit_head a t
      cases hps : pySplit a t with
      | nil => exact absurd hps (pySplit_ne_nil a t)
      | cons h r =>
        rw [hps] at hhd
        simp only [List.headD_cons] at hhd
        simpa using hhd
    · have hct : c ∈ t := by
        rcases List.mem_cons.mp hc with h | h
        · exact absurd h.symm hac
        · exact h
      rw [if_neg hac]
      have hdw : (a :: t).dropWhile (· != c) = t.dropWhile (· != c) := by
        rw [List.dropWhile_cons]
        simp [hac]
      rw [hdw]
      cases hps : pySplit c t with
      | nil => exact absurd hps (pySplit_ne_nil c t)
      | cons h r =>
        rw [hps] at ih
        have := ih hct
        simpa using this

theorem urlPathCapture_suffix (u r : List Char) (h : urlPathCapture u = some r) :
    r <:+ u := by
  rw [urlPathCapture] at h
  split at h
  · split at h
    · exact (Option.some.injEq _ _ ▸ h) ▸
        ((List.dropWhile_suffix _).trans (List.drop_suffix 8 u))
    · exact (Option.some.injEq _ _ ▸ h) ▸ List.dropWhile_suffix _
  · split at h
    · split at h
      · exact (Option.some.injEq _ _ ▸ h) ▸
          ((List.dropWhile_suffix _).trans (List.drop_suffix 7 u))
      · exact (Option.some.injEq _ _ ▸ h) ▸ List.dropWhile_suffix _
    · split at h
      · exact (Option.some.injEq _ _ ▸ h) ▸ List.dropWhile_suffix _
      · exact absurd h (by simp)

/-- C10: `url_extract_parameter` returns `None` exactly when the url has
no `'?'`, and otherwise the segment between the first `'?'` and the next
`'?'` (or the end); correspondingly `strip_url` never returns a string
containing `'?'`. -/
theorem url_query_extraction (url : String) :
    (url_extract_parameter url = none ↔ '?' ∉ url.data)
    ∧ ('?' ∈ url.data →
        url_extract_parameter url =
          some ⟨((url.data.dropWhile (· != '?')).drop 1).takeWhile (· != '?')⟩)
    ∧ '?' ∉ (strip_url url).data := by
  have hu : '?' ∉ (pySplit '?' url.data).headD [] := by
    rw [pySplit_head]
    intro hmem
    have := List.mem_takeWhile_imp hmem
    simp at this
  refine ⟨?_, ?_, ?_⟩
  · rw [url_extract_parameter]
    split
    · next h => simp [h]
    · next h => simp [h]
  · intro h
    rw [url_extract_parameter, if_pos h, pySplit_getD_one '?' url.data h]
  · cases hcap : urlPathCapture ((pySplit '?' url.data).headD []) with
    | none =>
      simp only [strip_url, hcap]
      exact hu
    | some path =>
      have hsub := urlPathCapture_suffix _ _ hcap
      simp only [strip_url, hcap]
      intro hmem
      exact hu (hsub.subset hmem)

/-- C10 witness: a url with two `'?'` characters yields the segment
between them, and its stripped form carries no `'?'`. -/
theorem url_query_extraction_witness :
    url_extract_parameter "https://x.com/p?a=1?b=2" = some "a=1"
    ∧ '?' ∉ (strip_url "https://x.com/p?a=1?b=2").data := by
  have h := url_query_extraction "https://x.com/p?a=1?b=2"
  exact ⟨(h.2.1 (by decide)).trans (by decide), h.2.2⟩

theorem ga4InnerLoop_ok (backend : Nat → Nat → Nat → Fetch)
    (offset reqLimit : Nat) (log : List Nat) (et : Option String)
    (err : Option Exn) (page : GA4Resp)
    (h : backend log.length offset reqLimit = Fetch.ok page) :
    ga4InnerLoop backend offset reqLimit 3 log et err =
      { success := true, page := some page, complete := false,
        errorType := et, error := none, callLog := log ++ [offset] } := by
  rw [show (3 : Nat) = 2 + 1 from rfl, ga4InnerLoop, h]

theorem ga4InnerLoop_generic (backend : Nat → Nat → Nat → Fetch)
    (offset reqLimit : Nat) (log : List Nat) (et : Option String)
    (err : Option Exn)
    (h : ∀ i, backend i offset reqLimit = Fetch.exn Exn.generic) :
    ga4InnerLoop backend offset reqLimit 3 log et err =
      { success := false, page := none, complete := false,
        errorType := some "Error", error := some Exn.generic,
        callLog := log ++ [offset, offset, offset] } := by
  rw [show (3 : Nat) = 2 + 1 from rfl, ga4InnerLoop, h]
  dsimp only
  rw [show (2 : Nat) = 1 + 1 from rfl, ga4InnerLoop, h]
  dsimp only
  rw [show (1 : Nat) = 0 + 1 from rfl, ga4InnerLoop, h]
  dsimp only
  rw [ga4InnerLoop]
  simp

theorem ga4OuterLoop_succ (backend : Nat → Nat → Nat → Fetch)
    (limit reqLimit f : Nat) (s : OuterState) (h : s.complete = false) :
    ga4OuterLoop backend limit reqLimit (f + 1) s =
      ga4OuterLoop backend limit reqLimit f
        (ga4OuterStep backend limit reqLimit s) := by
  rw [ga4OuterLoop, if_neg (by simp [h])]

theorem ga4OuterStep_generic (limit reqLimit : Nat) (s : OuterState) :
    ga4OuterStep (ga4ExnBackend Exn.generic) limit reqLimit s =
      { offset := s.offset, complete := false, responses := s.responses,
        errorType := some "Error", error := some Exn.generic,
        callLog := s.callLog ++ [s.offset, s.offset, s.offset] } := by
  rw [ga4OuterStep,
    ga4InnerLoop_generic (ga4ExnBackend Exn.generic) s.offset reqLimit
      s.callLog s.errorType s.error (fun i => rfl)]
  rfl

theorem ga4OuterLoop_generic_run (limit reqLimit : Nat) (f : Nat) :
    ∀ s : OuterState, s.complete = false →
      (ga4OuterLoop (ga4ExnBackend Exn.generic) limit reqLimit f s).complete
          = false
      ∧ (ga4OuterLoop (ga4ExnBackend Exn.generic) limit reqLimit f s).callLog
          = s.callLog ++ List.replicate (3 * f) s.offset := by
  induction f with
  | zero =>
    intro s h
    rw [ga4OuterLoop]
    simp [h]
  | succ f ih =>
    intro s h
    rw [ga4OuterLoop_succ _ _ _ _ _ h, ga4OuterStep_generic]
    obtain ⟨ih1, ih2⟩ := ih
      { offset := s.offset, complete := false, responses := s.responses,
        errorType := some "Error", error := some Exn.generic,
        callLog := s.callLog ++ [s.offset, s.offset, s.offset] } rfl
    refine ⟨ih1, ?_⟩
    rw [ih2]
    rw [show 3 * (f + 1) = 3 + 3 * f from by ring, List.replicate_add,
      show List.replicate 3 s.offset = [s.offset, s.offset, s.offset] from rfl]
    simp

@[simp] theorem mkRows_length (n : Nat) : (mkRows n).length = n :=
  List.length_replicate n []

theorem c1Page_rows_length (o : Nat) :
    (c1Page o).rows.length = min 100000 (200042 - o) := by
  rw [c1Page]
  dsimp only
  exact mkRows_length _

theorem c1Page_meta (o : Nat) : (c1Page o).metaRowCount = 200042 := rfl

theorem c1_step0 : ga4OuterStep c1Backend 1000000000 100000
    { offset := 0, complete := false, responses := [], errorType := none,
      error := none, callLog := [] }
    = { offset := 100000, complete := false, responses := [c1Page 0],
        errorType := none, error := none, callLog := [0] } := by
  have h0 : (c1Page 0).rows.length = 100000 := by
    rw [c1Page_rows_length]; omega
  rw [ga4OuterStep]
  dsimp only
  rw [ga4InnerLoop_ok c1Backend 0 100000 [] none none (c1Page 0) rfl]
  dsimp only
  have hrc : (c1Page 0).rowCount = 100000 := by
    rw [GA4Resp.rowCount]; exact h0
  rw [hrc, c1Page_meta]
  norm_num

theorem c1_step1 : ga4OuterStep c1Backend 1000000000 100000
    { offset := 100000, complete := false, responses := [c1Page 0],
      errorType := none, error := none, callLog := [0] }
    = { offset := 200000, complete := false,
        responses := [c1Page 0, c1Page 100000], errorType := none,
        error := none, callLog := [0, 100000] } := by
  have h1 : (c1Page 100000).rows.length = 100000 := by
    rw [c1Page_rows_length]; omega
  rw [ga4OuterStep]
  dsimp only
  rw [ga4InnerLoop_ok c1Backend 100000 100000 [0] none none
    (c1Page 100000) rfl]
  dsimp only
  have hrc : (c1Page 100000).rowCount = 100000 := by
    rw [GA4Resp.rowCount]; exact h1
  rw [hrc, c1Page_meta]
  norm_num

theorem c1_step2 : ga4OuterStep c1Backend 1000000000 100000
    { offset := 200000, complete := false,
      responses := [c1Page 0, c1Page 100000], errorType := none,
      error := none, callLog := [0, 100000] }
    = { offset := 200042, complete := true,
        responses := [c1Page 0, c1Page 100000, c1Page 200000],
        errorType := none, error := none, callLog := [0, 100000, 200000] } := by
  have h2 : (c1Page 200000).rows.length = 42 := by
    rw [c1Page_rows_length]; omega
  rw [ga4OuterStep]
  dsimp only
  rw [ga4InnerLoop_ok c1Backend 200000 100000 [0, 100000] none none
    (c1Page 200000) rfl]
  dsimp only
  have hrc : (c1Page 200000).rowCount = 42 := by
    rw [GA4Resp.rowCount]; exact h2
  rw [hrc, c1Page_meta]
  norm_num

theorem c1_run : ga4OuterLoop c1Backend 1000000000 100000 4
    { offset := 0, complete := false, responses := [], errorType := none,
      error := none, callLog := [] }
    = { offset := 200042, complete := true,
        responses := [c1Page 0, c1Page 100000, c1Page 200000],
        errorType := none, error := none, callLog := [0, 100000, 200000] } := by
  rw [show (4 : Nat) = 3 + 1 from rfl,
    ga4OuterLoop_succ c1Backend 1000000000 100000 3 _ rfl, c1_step0,
    show (3 : Nat) = 2 + 1 from rfl,
    ga4OuterLoop_succ c1Backend 1000000000 100000 2 _ rfl, c1_step1,
    show (2 : Nat) = 1 + 1 from rfl,
    ga4OuterLoop_succ c1Backend 1000000000 100000 1 _ rfl, c1_step2,
    show (1 : Nat) = 0 + 1 from rfl, ga4OuterLoop]
  rfl

/-- C1: against a backend returning three successive pages of 100,000,
100,000 and 42 rows with a reported total of 200,042, `get_ga4_response`
with no caller limit terminates (it reaches `complete` within fuel 4) and
the joined result has exactly 200,042 rows with `error` and `error_type`
both `None`. -/
theorem ga4_pagination_200042 :
    (get_ga4_response c1Backend ["date"] ["sessions"] none 4).map
      (fun r => (r.resp.rowCount, r.error, r.errorType))
      = some (200042, none, none) := by
  have h0 : (c1Page 0).rows.length = 100000 := by
    rw [c1Page_rows_length]; omega
  have h1 : (c1Page 100000).rows.length = 100000 := by
    rw [c1Page_rows_length]; omega
  have h2 : (c1Page 200000).rows.length = 42 := by
    rw [c1Page_rows_length]; omega
  have hflat : (join_ga4_responses
      [c1Page 0, c1Page 100000, c1Page 200000]).rowCount = 200042 := by
    rw [GA4Resp.rowCount, join_ga4_responses]
    dsimp only
    simp only [List.map_cons, List.map_nil]
    rw [List.length_flatten]
    simp only [List.map_cons, List.map_nil, h0, h1, h2, List.sum_cons,
      List.sum_nil]
    norm_num
  rw [get_ga4_response, c1_run]
  dsimp only
  rw [if_pos rfl, ga4Assemble]
  dsimp only
  rw [hflat]
  norm_num [hflat]

/-- C4: each of `PermissionDenied`, `ResourceExhausted`, `MissingID` and
`InvalidArgument` terminates the whole fetch on its first occurrence —
exactly one backend call, no retry — and sets `error_type` to the matching
string, with `InvalidArgument` sub-classified by message text; a generic
exception, however, is retried in rounds of 3 attempts at the same offset,
and when it persists the outer loop re-enters the round forever: after `f`
rounds the loop has made `3·f` calls at offset 0 and is still not
`complete` (with fuel 2 that is already 6 attempts at the same page —
more than the claimed cap of 3), so the fetch never terminates. -/
theorem ga4_error_classification :
    ((get_ga4_response (ga4ExnBackend Exn.permissionDenied)
        ["date"] ["sessions"] none 2).map
        (fun r => (r.errorType, r.error, r.resp.rows.length))
      = some (some "PermissionDenied", some Exn.permissionDenied, 0))
    ∧ (ga4OuterLoop (ga4ExnBackend Exn.permissionDenied) 1000000000 100000 2
        ga4InitState).callLog = [0]
    ∧ ((get_ga4_response (ga4ExnBackend Exn.resourceExhausted)
        ["date"] ["sessions"] none 2).map (fun r => r.errorType)
      = some (some "ResourceExhausted"))
    ∧ (ga4OuterLoop (ga4ExnBackend Exn.resourceExhausted) 1000000000 100000 2
        ga4InitState).callLog = [0]
    ∧ ((get_ga4_response (ga4ExnBackend Exn.missingID)
        ["date"] ["sessions"] none 2).map (fun r => r.errorType)
      = some (some "MissingID"))
    ∧ (ga4OuterLoop (ga4ExnBackend Exn.missingID) 1000000000 100000 2
        ga4InitState).callLog = [0]
    ∧ (∀ msg : String,
        (get_ga4_response (ga4ExnBackend (Exn.invalidArgument msg))
          ["date"] ["sessions"] none 2).map (fun r => (r.errorType, r.error))
        = some (some (classifyInvalidArgument msg),
                some (Exn.invalidArgument msg)))
    ∧ classifyInvalidArgument
        "Some requested metrics are incompatible with each other"
        = "IncompatibleMetrics"
    ∧ classifyInvalidArgument "Invalid property ID 00000" = "InvalidPropertyID"
    ∧ classifyInvalidArgument "bad dimension name" = "InvalidArgument"
    ∧ (∀ f : Nat,
        (ga4OuterLoop (ga4ExnBackend Exn.generic) 1000000000 100000 f
            ga4InitState).complete = false
        ∧ (ga4OuterLoop (ga4ExnBackend Exn.generic) 1000000000 100000 f
            ga4InitState).callLog = List.replicate (3 * f) 0
        ∧ get_ga4_response (ga4ExnBackend Exn.generic)
            ["date"] ["sessions"] none f = none)
    ∧ (ga4OuterLoop (ga4ExnBackend Exn.generic) 1000000000 100000 2
        ga4InitState).callLog = [0, 0, 0, 0, 0, 0] := by
  have hgen : ∀ f : Nat,
      (ga4OuterLoop (ga4ExnBackend Exn.generic) 1000000000 100000 f
          ga4InitState).complete = false
      ∧ (ga4OuterLoop (ga4ExnBackend Exn.generic) 1000000000 100000 f
          ga4InitState).callLog = List.replicate (3 * f) 0 := by
    intro f
    obtain ⟨hc, hl⟩ :=
      ga4OuterLoop_generic_run 1000000000 100000 f ga4InitState rfl
    refine ⟨hc, ?_⟩
    rw [hl]
    simp [ga4InitState]
  refine ⟨rfl, rfl, rfl, rfl, rfl, rfl, fun msg => rfl, rfl, rfl, rfl,
    fun f => ⟨(hgen f).1, (hgen f).2, ?_⟩, ?_⟩
  · have hcl : (ga4OuterLoop (ga4ExnBackend Exn.generic) 1000000000 100000 f
        { offset := 0, complete := false, responses := [], errorType := none,
          error := none, callLog := [] }).complete = false := (hgen f).1
    rw [get_ga4_response, if_neg (by simp [hcl])]
  · rw [(hgen 2).2]
    rfl

end Pygoogalytics
